import Mathlib

/-!
Verification of the content-api POST handler (src/content-api-post.js).

The handler is a single AWS Lambda function. Its pipeline: configuration
check, bearer-token authentication, JSON body parsing, base64 decoding of
the image payload, metadata validation, byte-signature sniffing, an image
transform, metadata-map construction with percent-escaping, storage-key
derivation, and an object-store put. We embed the handler shallowly:

* JavaScript string values that may be `undefined` become `Option String`;
  JavaScript truthiness on such values (`!x`) becomes the `truthy` test
  (false exactly for `undefined` and the empty string).
* The external collaborators (the `file-type` sniffer, the `sharp`
  transform, the `uuid` generator, the S3 `putObject` call) are passed in
  as an explicit dependency record `Deps`, exactly as the spec treats them
  (opaque capabilities).
* A thrown JavaScript exception that escapes the `async` promise executor
  is modelled as `Outcome.thrown`: the handler promise never resolves with
  a structured response in that case.
* `Outcome.response` carries, besides the structured response, the
  `S3Params` value passed to `putObject` when the storage call was made
  (`none` when no storage call happened).
-/

namespace ContentApi

/-- JavaScript truthiness for a possibly-undefined string value:
`undefined` and `""` are falsy, every other string is truthy. -/
def truthy : Option String → Bool
  | none => false
  | some s => s != ""

/-- JavaScript template-literal stringification of a possibly-undefined
string value: `undefined` prints as the literal string "undefined". -/
def strOf : Option String → String
  | none => "undefined"
  | some s => s

/-- Node.js `Buffer` values are objects and objects are always truthy in
JavaScript, so the `!decodedImage` test in the source can never fire,
whatever the byte contents. -/
def bufferTruthy (_bytes : List Nat) : Bool := true

/-- Drops `pat` from the front of `s` when `pat` is a prefix, returning the
rest; `none` when `pat` is not a prefix. -/
def dropPre : List Char → List Char → Option (List Char)
  | [], s => some s
  | _ :: _, [] => none
  | p :: ps, c :: cs => if p = c then dropPre ps cs else none

/-- JavaScript `String.prototype.replace` with a string pattern and empty
replacement: removes the first occurrence of the pattern anywhere in the
string (not only a leading prefix); returns the string unchanged when the
pattern does not occur. -/
def replaceFirstL (pat : List Char) : List Char → List Char
  | [] => (dropPre pat []).getD []
  | c :: cs =>
    match dropPre pat (c :: cs) with
    | some rest => rest
    | none => c :: replaceFirstL pat cs

/-- `s.replace(pat, "")` from the source, on `String`. -/
def replaceFirst (pat s : String) : String := String.mk (replaceFirstL pat.data s.data)

/-- Is `pat` a prefix of the second list? -/
def prefixTest : List Char → List Char → Bool
  | [], _ => true
  | _ :: _, [] => false
  | p :: ps, c :: cs => p == c && prefixTest ps cs

/-- Does `pat` occur as a contiguous substring? Used for
`String.prototype.includes` in the sharp error classifier. -/
def infixTest (pat : List Char) : List Char → Bool
  | [] => prefixTest pat []
  | c :: cs => prefixTest pat (c :: cs) || infixTest pat cs

/-- `s.includes(pat)` from the source. -/
def containsSubstr (pat s : String) : Bool := infixTest pat.data s.data

/-- The value of one base64 alphabet character (`A-Z a-z 0-9 + /`),
`none` for every other character. -/
def b64Val : Char → Option Nat := fun c =>
  let n := c.toNat
  if 65 ≤ n ∧ n ≤ 90 then some (n - 65)
  else if 97 ≤ n ∧ n ≤ 122 then some (n - 71)
  else if 48 ≤ n ∧ n ≤ 57 then some (n + 4)
  else if n = 43 then some 62
  else if n = 47 then some 63
  else none

/-- Regroups 6-bit base64 values into 8-bit bytes; a trailing group of two
values yields one byte, of three values two bytes, a lone value nothing. -/
def b64Bytes : List Nat → List Nat
  | a :: b :: c :: d :: rest =>
    (a * 4 + b / 16) :: ((b % 16) * 16 + c / 4) :: ((c % 4) * 64 + d) :: b64Bytes rest
  | [a, b] => [a * 4 + b / 16]
  | [a, b, c] => [a * 4 + b / 16, (b % 16) * 16 + c / 4]
  | _ => []

/-- `Buffer.from(s, "base64")` from the source: Node.js forgiving base64
decoding, ignoring characters outside the alphabet (including padding and
whitespace) and regrouping the remaining 6-bit values into bytes. -/
def nodeBase64Decode (s : String) : List Nat := b64Bytes (s.data.filterMap b64Val)

/-- The percent character, written by code point to keep the character set
of this file plain. -/
def pctChar : Char := Char.ofNat 37

/-- Characters `encodeURIComponent` leaves unescaped:
`A-Z a-z 0-9 - _ . ! ~ * ( )` and the apostrophe (code 39). -/
def isUriUnreserved (c : Char) : Bool :=
  let n := c.toNat
  (65 ≤ n && n ≤ 90) || (97 ≤ n && n ≤ 122) || (48 ≤ n && n ≤ 57) ||
    n == 45 || n == 95 || n == 46 || n == 33 || n == 126 || n == 42 ||
    n == 39 || n == 40 || n == 41

/-- Uppercase hexadecimal digit for a value below 16. -/
def hexDigitUpper (n : Nat) : Char := Char.ofNat (if n < 10 then 48 + n else 55 + n)

/-- Lowercase hexadecimal digit for a value below 16. -/
def hexDigitLower (n : Nat) : Char := Char.ofNat (if n < 10 then 48 + n else 87 + n)

/-- `%XX` escape of one byte, uppercase hex as `encodeURIComponent`
produces it. -/
def pctByte (b : Nat) : List Char := [pctChar, hexDigitUpper (b / 16), hexDigitUpper (b % 16)]

/-- `encodeURIComponent` on one character: unreserved characters pass
through, every other character is percent-encoded over its UTF-8 bytes. -/
def encChar (c : Char) : List Char :=
  let n := c.toNat
  if isUriUnreserved c then [c]
  else if n < 128 then pctByte n
  else if n < 2048 then pctByte (192 + n / 64) ++ pctByte (128 + n % 64)
  else if n < 65536 then
    pctByte (224 + n / 4096) ++ pctByte (128 + n / 64 % 64) ++ pctByte (128 + n % 64)
  else
    pctByte (240 + n / 262144) ++ pctByte (128 + n / 4096 % 64) ++
      pctByte (128 + n / 64 % 64) ++ pctByte (128 + n % 64)

/-- `encodeURIComponent` over a character list. -/
def encList : List Char → List Char
  | [] => []
  | c :: t => encChar c ++ encList t

/-- The JavaScript builtin `encodeURIComponent`. -/
def encodeURIComponent (s : String) : String := String.mk (encList s.data)

/-- `metadataEscape` from the source: URL-encode untrusted input for S3
metadata storage (the REST transport reliably supports only US-ASCII). -/
def metadataEscape (input : String) : String := encodeURIComponent input

/-- Value of one hexadecimal digit character, upper or lower case. -/
def hexVal : Char → Option Nat := fun c =>
  let n := c.toNat
  if 48 ≤ n ∧ n ≤ 57 then some (n - 48)
  else if 65 ≤ n ∧ n ≤ 70 then some (n - 55)
  else if 97 ≤ n ∧ n ≤ 102 then some (n - 87)
  else none

/-- Two hexadecimal digit characters as one byte. -/
def hexByte (h1 h2 : Char) : Option Nat :=
  match hexVal h1, hexVal h2 with
  | some a, some b => some (16 * a + b)
  | _, _ => none

/-- One token of a percent-encoded string: a plain character or one
escaped byte. -/
inductive UriItem where
  | ch (c : Char)
  | byte (b : Nat)
deriving DecidableEq

/-- First stage of the JavaScript builtin `decodeURIComponent`: scan the
string, turning each `%XX` escape into its byte and keeping every other
character; `none` (a thrown `URIError`) when a percent sign is not
followed by two hexadecimal digits. -/
def uriItems : List Char → Option (List UriItem)
  | [] => some []
  | c :: rest =>
    if c = pctChar then
      match rest with
      | h1 :: h2 :: r1 =>
        match hexByte h1 h2 with
        | some b => (uriItems r1).map (fun l => UriItem.byte b :: l)
        | none => none
      | _ => none
    else (uriItems rest).map (fun l => UriItem.ch c :: l)

/-- State of the UTF-8 assembler: between sequences, or inside one with
`k` continuation bytes still expected, the accumulated high bits, and the
minimum code point admissible for the sequence length (overlong check). -/
inductive Utf8State where
  | clean
  | need (k : Nat) (acc : Nat) (minCp : Nat)
deriving DecidableEq

/-- Second stage of `decodeURIComponent`, as a state machine over the
items: plain characters pass through only between sequences; an escaped
lead byte opens a sequence, escaped continuation bytes extend it, and on
completion the code point is emitted after rejecting overlong forms,
surrogates and values above the Unicode range; every malformed shape is
`none` (a thrown `URIError`). -/
def decItemsGo : Utf8State → List UriItem → Option (List Char)
  | .clean, [] => some []
  | .need _ _ _, [] => none
  | .clean, .ch c :: rest => (decItemsGo .clean rest).map (fun l => c :: l)
  | .need _ _ _, .ch _ :: _ => none
  | .clean, .byte b :: rest =>
    if b < 128 then (decItemsGo .clean rest).map (fun l => Char.ofNat b :: l)
    else if b < 192 then none
    else if b < 224 then decItemsGo (.need 1 (b - 192) 128) rest
    else if b < 240 then decItemsGo (.need 2 (b - 224) 2048) rest
    else if b < 248 then decItemsGo (.need 3 (b - 240) 65536) rest
    else none
  | .need k acc m, .byte b :: rest =>
    if 128 ≤ b ∧ b < 192 then
      match k with
      | 0 => none
      | 1 =>
        if m ≤ acc * 64 + (b - 128) ∧
            (acc * 64 + (b - 128) < 55296 ∨ 57344 ≤ acc * 64 + (b - 128)) ∧
            acc * 64 + (b - 128) < 1114112 then
          (decItemsGo .clean rest).map (fun l => Char.ofNat (acc * 64 + (b - 128)) :: l)
        else none
      | k + 2 => decItemsGo (.need (k + 1) (acc * 64 + (b - 128)) m) rest
    else none

/-- The second stage started between sequences. -/
def decodeItems (l : List UriItem) : Option (List Char) := decItemsGo .clean l

/-- The JavaScript builtin `decodeURIComponent`, as the composition of the
two stages; `none` models a thrown `URIError`. -/
def decodeURIComponent (s : String) : Option String :=
  ((uriItems s.data).bind decodeItems).map String.mk

/-- The item sequence produced by percent-encoding one character: the
plain character when unreserved, otherwise its escaped UTF-8 bytes. -/
def itemsOf (c : Char) : List UriItem :=
  let n := c.toNat
  if isUriUnreserved c then [.ch c]
  else if n < 128 then [.byte n]
  else if n < 2048 then [.byte (192 + n / 64), .byte (128 + n % 64)]
  else if n < 65536 then
    [.byte (224 + n / 4096), .byte (128 + n / 64 % 64), .byte (128 + n % 64)]
  else
    [.byte (240 + n / 262144), .byte (128 + n / 4096 % 64), .byte (128 + n / 64 % 64),
      .byte (128 + n % 64)]

/-- `itemsOf` over a character list. -/
def itemsList : List Char → List UriItem
  | [] => []
  | c :: t => itemsOf c ++ itemsList t

/-- One character JSON-escaped as `JSON.stringify` escapes the contents of
a string literal. -/
def jsonEscapeChar (c : Char) : List Char :=
  let n := c.toNat
  if n = 34 then [Char.ofNat 92, Char.ofNat 34]
  else if n = 92 then [Char.ofNat 92, Char.ofNat 92]
  else if n = 8 then [Char.ofNat 92, Char.ofNat 98]
  else if n = 9 then [Char.ofNat 92, Char.ofNat 116]
  else if n = 10 then [Char.ofNat 92, Char.ofNat 110]
  else if n = 12 then [Char.ofNat 92, Char.ofNat 102]
  else if n = 13 then [Char.ofNat 92, Char.ofNat 114]
  else if n < 32 then
    [Char.ofNat 92, Char.ofNat 117, Char.ofNat 48, Char.ofNat 48,
      hexDigitLower (n / 16), hexDigitLower (n % 16)]
  else [c]

/-- JSON escaping over a character list. -/
def jsonEscapeList : List Char → List Char
  | [] => []
  | c :: t => jsonEscapeChar c ++ jsonEscapeList t

/-- `JSON.stringify` of a single string value (quotes included). -/
def jsonStringifyString (s : String) : String :=
  "\"" ++ String.mk (jsonEscapeList s.data) ++ "\""

/-- The parsed JSON request body (`data` in the source); every field is a
possibly-absent string. -/
structure Data where
  body : Option String := none
  accountId : Option String := none
  championFundId : Option String := none
  type : Option String := none
  ccampaignId : Option String := none
  contentDocumentId : Option String := none
  contentType : Option String := none
  contentVersionId : Option String := none
  name : Option String := none
  userId : Option String := none
deriving DecidableEq

/-- Result of `JSON.parse(event.body)`: either a parsed object or a parse
failure (a thrown `SyntaxError`). -/
inductive EventBody where
  | json (d : Data)
  | malformed
deriving DecidableEq

/-- The invocation event: the `Authorization` header (possibly absent) and
the raw request body. -/
structure Event where
  Authorization : Option String
  body : EventBody

/-- The process environment variables the handler reads. -/
structure Env where
  ACCESS_KEY : Option String := none
  S3_BUCKET : Option String := none
  IMAGE_ACCESS_BASE_URI : Option String := none

/-- `fileTypeFromBuffer` result: extension and MIME type sniffed from the
bytes. -/
structure SniffedFormat where
  ext : String
  mime : String
deriving DecidableEq

/-- The S3 object metadata record built in the success path; a field is
`none` exactly when the source never assigns the key. -/
structure Metadata where
  SalesforceAccountId : Option String := none
  SalesforceChampionFundId : Option String := none
  SalesforceCCampaignId : Option String := none
  SalesforceContentDocumentId : Option String := none
  SalesforceContentType : Option String := none
  SalesforceContentVersionId : Option String := none
  SalesforceFilename : Option String := none
  SalesforceUserId : Option String := none
deriving DecidableEq

/-- An optional metadata value: kept only when the request field is
truthy, mirroring `if (data.x) { metadata.K = ... }`. -/
def optField (x : Option String) : Option String := if truthy x then x else none

/-- The metadata construction from the success path of the source: the
identity keys and each optional key are assigned only when the request
field is truthy; `contentType` and `name` pass through `metadataEscape`. -/
def buildMetadata (data : Data) : Metadata where
  SalesforceAccountId := optField data.accountId
  SalesforceChampionFundId := optField data.championFundId
  SalesforceCCampaignId := optField data.ccampaignId
  SalesforceContentDocumentId := optField data.contentDocumentId
  SalesforceContentType := (optField data.contentType).map metadataEscape
  SalesforceContentVersionId := optField data.contentVersionId
  SalesforceFilename := (optField data.name).map metadataEscape
  SalesforceUserId := optField data.userId

/-- One `"key":"value"` member of `JSON.stringify` of the metadata object,
empty when the key is absent. -/
def mdEntry (k : String) (v : Option String) : List String :=
  match v with
  | none => []
  | some s => ["\"" ++ k ++ "\":" ++ jsonStringifyString s]

/-- `JSON.stringify(metadata)`, keys in the insertion order of the
source. -/
def jsonStringifyMetadata (m : Metadata) : String :=
  "\x7b" ++
    String.intercalate ","
      (mdEntry "SalesforceAccountId" m.SalesforceAccountId ++
        mdEntry "SalesforceChampionFundId" m.SalesforceChampionFundId ++
        mdEntry "SalesforceCCampaignId" m.SalesforceCCampaignId ++
        mdEntry "SalesforceContentDocumentId" m.SalesforceContentDocumentId ++
        mdEntry "SalesforceContentType" m.SalesforceContentType ++
        mdEntry "SalesforceContentVersionId" m.SalesforceContentVersionId ++
        mdEntry "SalesforceFilename" m.SalesforceFilename ++
        mdEntry "SalesforceUserId" m.SalesforceUserId) ++
    "\x7d"

/-- The structured response returned through `resolve`. -/
structure Response where
  statusCode : Nat
  body : String
  isBase64Encoded : Bool
  contentTypeHeader : String
deriving DecidableEq

/-- `fail(message, code)` from the source: the structured error response
with body `JSON.stringify({ error: message })`. -/
def fail (message : String) (code : Nat) : Response where
  statusCode := code
  body := "\x7b\"error\":" ++ jsonStringifyString message ++ "\x7d"
  isBase64Encoded := false
  contentTypeHeader := "application/json"

/-- The parameter record passed to `s3.putObject`. -/
structure S3Params where
  ACL : String
  Body : List Nat
  Bucket : String
  ContentType : String
  Key : String
  Metadata : Metadata
deriving DecidableEq

/-- How one invocation of the handler ends. `response r storage` is a
resolved promise with structured response `r`, where `storage` records the
`S3Params` passed to `putObject` (`none` when no storage call was made).
`thrown msg` is an exception escaping the `async` promise executor: the
promise never resolves and no structured response is produced. -/
inductive Outcome where
  | response (r : Response) (storage : Option S3Params)
  | thrown (msg : String)
deriving DecidableEq

/-- Status code of an outcome, `none` when the handler threw instead of
responding. -/
def outcomeStatus : Outcome → Option Nat
  | .response r _ => some r.statusCode
  | .thrown _ => none

/-- The external collaborators, passed explicitly: the byte sniffing
library, the sharp transform (`Except.error` is a rejected promise whose
error message feeds the catch handler), the 16 random bytes consumed by
the uuid generator in this invocation, and the S3 put (returning an error
message, or `none` on success). -/
structure Deps where
  sniff : List Nat → Option SniffedFormat
  transform : List Nat → Except String (List Nat)
  uuidBytes : List Nat
  putObject : S3Params → Option String

/-- Modelled from the spec: the uuid library (not part of this
repository) generates a fresh random unique identifier with a 128-bit,
universally-unique generation scheme — RFC 4122 version 4 formatting of 16
random bytes, with the version nibble forced to 4 and the variant bits to
10, printed as lowercase hex in the 8-4-4-4-12 hyphenated layout. -/
def uuidv4 (bytes : List Nat) : String :=
  let g : Nat → Nat := fun i => (bytes.getD i 0) % 256
  let hx : Nat → List Char := fun b => [hexDigitLower (b / 16 % 16), hexDigitLower (b % 16)]
  let hy : List Char := [Char.ofNat 45]
  String.mk
    (hx (g 0) ++ hx (g 1) ++ hx (g 2) ++ hx (g 3) ++ hy ++
      hx (g 4) ++ hx (g 5) ++ hy ++
      hx (64 + g 6 % 16) ++ hx (g 7) ++ hy ++
      hx (128 + g 8 % 64) ++ hx (g 9) ++ hy ++
      hx (g 10) ++ hx (g 11) ++ hx (g 12) ++ hx (g 13) ++ hx (g 14) ++ hx (g 15))

/-- Modelled from the spec: the Format Sniffer (the `file-type` library,
not part of this repository) inspects byte signatures to produce the
sniffed format, failing when no known signature matches; here the PNG and
JPEG signatures, which the spec scenarios exercise. Used to instantiate
`Deps.sniff` at concrete inputs. -/
def pngJpegSniff : List Nat → Option SniffedFormat
  | 137 :: 80 :: 78 :: 71 :: 13 :: 10 :: 26 :: 10 :: _ => some ⟨"png", "image/png"⟩
  | 255 :: 216 :: 255 :: _ => some ⟨"jpg", "image/jpeg"⟩
  | _ => none

/-- The Lambda handler from src/content-api-post.js, stage by stage in
source order: env-var check, bearer comparison (a missing header throws,
because `undefined.replace` is a `TypeError`), `JSON.parse` (a parse
failure throws), base64 decoding (`Buffer.from(undefined, ...)` throws),
required-metadata check, id mutual-exclusion check, byte sniffing, the
sharp transform with its catch-handler substring classification, and the
S3 put with uri construction. -/
def handler (env : Env) (deps : Deps) (event : Event) : Outcome :=
  if truthy env.ACCESS_KEY = false ∨ truthy env.S3_BUCKET = false then
    .response (fail "Required env vars not configured" 500) none
  else
    match event.Authorization with
    | none => .thrown "TypeError"
    | some authGiven =>
      if replaceFirst "Bearer " authGiven ≠ strOf env.ACCESS_KEY then
        .response (fail "Not authorised" 401) none
      else
        match event.body with
        | .malformed => .thrown "SyntaxError"
        | .json data =>
          match data.body with
          | none => .thrown "TypeError"
          | some b64 =>
            let decodedImage := nodeBase64Decode b64
            if bufferTruthy decodedImage = false ∨
                (truthy data.accountId = false ∧ truthy data.championFundId = false) ∨
                truthy data.type = false then
              .response (fail "Missing required metadata" 400) none
            else if truthy data.championFundId = true ∧
                (truthy data.accountId = true ∨ truthy data.ccampaignId = true) then
              .response (fail "Id Mismatch" 400) none
            else
              match deps.sniff decodedImage with
              | none => .response (fail "Unrecognised file type" 400) none
              | some mimeType =>
                match deps.transform decodedImage with
                | .error sharpErrorMessage =>
                  if containsSubstr "VipsJpeg: Invalid SOS parameters for sequential JPEG"
                      sharpErrorMessage = true then
                    .response (fail "Processing error: corrupt JPEG, invalid SOS parameters" 400)
                      none
                  else if containsSubstr "VipsJpeg: Premature end of input file"
                      sharpErrorMessage = true then
                    .response (fail "Processing error: corrupt, premature end of input file" 400)
                      none
                  else if containsSubstr "Input buffer contains unsupported image format"
                      sharpErrorMessage = true then
                    .response (fail "Processing error: unsupported image format" 400) none
                  else
                    .response (fail ("Processing error: " ++ sharpErrorMessage) 500) none
                | .ok processedImage =>
                  let generatedName := uuidv4 deps.uuidBytes ++ "." ++ mimeType.ext
                  let salesforcePathId :=
                    if truthy data.accountId = true then strOf data.accountId
                    else strOf data.championFundId
                  let path := salesforcePathId ++ "/" ++ strOf data.type ++ "/" ++ generatedName
                  let metadata := buildMetadata data
                  let s3Params : S3Params :=
                    ⟨"public-read", processedImage, strOf env.S3_BUCKET, mimeType.mime, path,
                      metadata⟩
                  match deps.putObject s3Params with
                  | some errorMessage =>
                    .response
                      (fail ("Save error: " ++ errorMessage ++ ". Metadata: " ++
                        jsonStringifyMetadata metadata) 500)
                      (some s3Params)
                  | none =>
                    .response
                      ⟨200,
                        "\x7b\"uri\":" ++
                          jsonStringifyString
                            (strOf env.IMAGE_ACCESS_BASE_URI ++ "/" ++ path) ++
                          "\x7d",
                        false, "application/json"⟩
                      (some s3Params)

/-- Rounding division: `a / b` rounded half up, on naturals. -/
def roundDiv (a b : Nat) : Nat := (2 * a + b) / (2 * b)

/-- Modelled from the spec: the Image Normalizer resize (the sharp/libvips
library, not part of this repository) with `fit: inside`,
`withoutEnlargement: true` and a square `maxSize` bounding box — an image
already inside the box is untouched, otherwise both dimensions are scaled
by the common factor `maxSize / max w h`, each rounded to the nearest
integer. -/
def resizeDims (maxSize w h : Nat) : Nat × Nat :=
  if w ≤ maxSize ∧ h ≤ maxSize then (w, h)
  else (roundDiv (w * maxSize) (max w h), roundDiv (h * maxSize) (max w h))

/-- The `maxSize` constant of the source. -/
def maxSizeConst : Nat := 2500

/-- The identity states that pass both the required-identity check and the
mutual-exclusion check of the handler: either a truthy `accountId` with a
falsy `championFundId`, or a truthy `championFundId` with falsy
`accountId` and `ccampaignId`. -/
def validIds (d : Data) : Prop :=
  (truthy d.accountId = true ∧ truthy d.championFundId = false) ∨
    (truthy d.championFundId = true ∧ truthy d.accountId = false ∧
      truthy d.ccampaignId = false)

instance (d : Data) : Decidable (validIds d) := by unfold validIds; infer_instance

/-- The response body of an outcome, `none` when the handler threw. -/
def outcomeBody : Outcome → Option String
  | .response r _ => some r.body
  | .thrown _ => none

/-- Normalizes `some ""` to `none`; used to state that the pipeline treats
a present-but-empty field exactly like an absent one. -/
def normO (x : Option String) : Option String := if x = some "" then none else x

/-- `normalizeData` erases empty-string identity and optional fields from
a parsed body, leaving the base64 `body` payload and `type` untouched. -/
def normalizeData (d : Data) : Data :=
  { d with
    accountId := normO d.accountId
    championFundId := normO d.championFundId
    ccampaignId := normO d.ccampaignId
    contentDocumentId := normO d.contentDocumentId
    contentType := normO d.contentType
    contentVersionId := normO d.contentVersionId
    name := normO d.name
    userId := normO d.userId }

theorem truthy_some (s : String) : truthy (some s) = (s != "") := rfl

theorem truthy_of_ne {s : String} (h : s ≠ "") : truthy (some s) = true := by
  simp [truthy, h]

theorem uuidv4_length (bytes : List Nat) : (uuidv4 bytes).length = 36 := by
  simp [uuidv4, String.length]

theorem optField_of_truthy {x : Option String} (h : truthy x = true) : optField x = x := by
  simp [optField, h]

theorem optField_ne_none {x : Option String} : optField x ≠ none ↔ truthy x = true := by
  cases x with
  | none => simp [optField, truthy]
  | some s => by_cases h : s = "" <;> simp [optField, truthy, h]

theorem optField_some_ne {x : Option String} {v : String} (h : optField x = some v) :
    v ≠ "" := by
  cases x with
  | none => simp [optField, truthy] at h
  | some s =>
    by_cases hs : s = "" <;> simp [optField, truthy, hs] at h
    exact h ▸ hs

theorem encChar_ne_nil (c : Char) : encChar c ≠ [] := by
  simp only [encChar]
  split
  · simp
  · split
    · simp [pctByte]
    · split
      · simp [pctByte]
      · split <;> simp [pctByte]

theorem metadataEscape_ne_empty {s : String} (h : s ≠ "") : metadataEscape s ≠ "" := by
  intro he
  apply h
  have hd : encList s.data = [] := congrArg String.data he
  cases hs : s.data with
  | nil => cases s with | mk l => simp at hs; rw [hs]
  | cons c t =>
    rw [hs] at hd
    simp only [encList] at hd
    exact absurd (List.append_eq_nil.mp hd).1 (encChar_ne_nil c)

theorem mapEscape_ne_none {x : Option String} :
    (optField x).map metadataEscape ≠ none ↔ truthy x = true := by
  rw [← optField_ne_none]
  cases optField x <;> simp

theorem mapEscape_some_ne {x : Option String} {v : String}
    (h : (optField x).map metadataEscape = some v) : v ≠ "" := by
  cases hx : optField x with
  | none => rw [hx] at h; simp at h
  | some w =>
    rw [hx] at h
    simp at h
    exact h ▸ metadataEscape_ne_empty (optField_some_ne hx)

/-- Claim C2 (amended): for every authorized request with a parseable JSON
body, a present `body` field and a truthy `type`, in which a truthy
`championFundId` occurs together with a truthy `accountId` or a truthy
`ccampaignId`, the handler returns IdMismatch with status 400 and body
`\x7b"error":"Id Mismatch"\x7d`, with no storage call; the conclusion holds
for every dependency record, so neither sniffing nor the transform nor
storage influences the result. -/
theorem C2_idMismatch (env : Env) (deps : Deps) (k a b64 : String) (d : Data)
    (hk : env.ACCESS_KEY = some k) (hk0 : k ≠ "") (hB : truthy env.S3_BUCKET = true)
    (hauth : replaceFirst "Bearer " a = k) (hbody : d.body = some b64)
    (hty : truthy d.type = true) (hch : truthy d.championFundId = true)
    (hdis : truthy d.accountId = true ∨ truthy d.ccampaignId = true) :
    handler env deps { Authorization := some a, body := .json d } =
      .response (fail "Id Mismatch" 400) none := by
  have hA : truthy (some k) = true := truthy_of_ne hk0
  rcases hdis with h | h <;>
    simp [handler, hA, hB, hk, strOf, hauth, hbody, bufferTruthy, hty, hch, h]

theorem C2_witness :
    handler { ACCESS_KEY := some "k", S3_BUCKET := some "bkt", IMAGE_ACCESS_BASE_URI := none }
      { sniff := pngJpegSniff, transform := Except.ok, uuidBytes := List.replicate 16 0,
        putObject := fun _ => none }
      { Authorization := some "Bearer k",
        body := .json { body := some "iVBORw0KGgo=", accountId := some "001xx", championFundId := some "ch", type := some "photo" } } =
      .response (fail "Id Mismatch" 400) none :=
  C2_idMismatch _ _ "k" "Bearer k" "iVBORw0KGgo=" _ rfl (by decide) (by decide) (by decide)
    rfl (by decide) (by decide) (Or.inl (by decide))

/-- Claim C2 counterexample: the claim as stated is false. First input: a
truthy `championFundId` together with a truthy `accountId` but an absent
`type` hits the missing-metadata check first, so the handler answers
"Missing required metadata", not "Id Mismatch". Second input: a
`championFundId` that is present but empty together with a truthy
`accountId` does not trigger the mismatch check at all (empty strings are
falsy) and the request succeeds with status 200. -/
theorem C2_counterexample :
    handler { ACCESS_KEY := some "k", S3_BUCKET := some "bkt", IMAGE_ACCESS_BASE_URI := none }
      { sniff := pngJpegSniff, transform := Except.ok, uuidBytes := List.replicate 16 0,
        putObject := fun _ => none }
      { Authorization := some "Bearer k",
        body := .json { body := some "iVBORw0KGgo=", accountId := some "001xx", championFundId := some "ch" } } =
      .response (fail "Missing required metadata" 400) none ∧
    fail "Missing required metadata" 400 ≠ fail "Id Mismatch" 400 ∧
    outcomeStatus
      (handler { ACCESS_KEY := some "k", S3_BUCKET := some "bkt", IMAGE_ACCESS_BASE_URI := none }
        { sniff := pngJpegSniff, transform := Except.ok, uuidBytes := List.replicate 16 0,
          putObject := fun _ => none }
        { Authorization := some "Bearer k",
          body := .json { body := some "iVBORw0KGgo=", accountId := some "001xx", championFundId := some "", type := some "photo" } }) = some 200 := by
  refine ⟨by decide, by decide, by decide⟩

/-- Claim C6 (amended): for every request whose `Authorization` header is
present, if removing the first occurrence of the substring `Bearer `
anywhere in the header value (the behavior of `replace` with a string
pattern; not only a leading prefix) leaves a string different from the
configured `ACCESS_KEY`, the handler returns Unauthorized with status 401
and body `\x7b"error":"Not authorised"\x7d` and makes no storage call; when
the header is entirely absent the handler instead throws a `TypeError`
(`undefined.replace`) and never produces a structured response. -/
theorem C6_auth (env : Env) (deps : Deps) (k a : String) (eb : EventBody)
    (hk : env.ACCESS_KEY = some k) (hk0 : k ≠ "") (hB : truthy env.S3_BUCKET = true)
    (hne : replaceFirst "Bearer " a ≠ k) :
    handler env deps { Authorization := some a, body := eb } =
      .response (fail "Not authorised" 401) none ∧
    handler env deps { Authorization := none, body := eb } = .thrown "TypeError" := by
  have hA : truthy (some k) = true := truthy_of_ne hk0
  constructor <;> simp [handler, hA, hB, hk, strOf, hne]

theorem C6_witness :
    handler { ACCESS_KEY := some "k", S3_BUCKET := some "bkt", IMAGE_ACCESS_BASE_URI := none }
      { sniff := pngJpegSniff, transform := Except.ok, uuidBytes := List.replicate 16 0,
        putObject := fun _ => none }
      { Authorization := some "Bearer wrong", body := .malformed } =
      .response (fail "Not authorised" 401) none :=
  (C6_auth _ _ "k" "Bearer wrong" .malformed rfl (by decide) (by decide) (by decide)).1

/-- Claim C6 counterexample: the claim as stated is false. First input: the
`Authorization` header is absent, yet the handler does not return 401 — it
throws a `TypeError` and no response is produced. Second input: with
secret `xyzk`, the header value `xyzBearer k` has no leading `Bearer `
prefix and differs from the secret, so the claim demands 401; but
`replace` removes the embedded `Bearer ` occurrence, the comparison
succeeds, and the handler proceeds past authentication (here to a 400). -/
theorem C6_counterexample :
    handler { ACCESS_KEY := some "k", S3_BUCKET := some "bkt", IMAGE_ACCESS_BASE_URI := none }
      { sniff := pngJpegSniff, transform := Except.ok, uuidBytes := List.replicate 16 0,
        putObject := fun _ => none }
      { Authorization := none, body := .malformed } = .thrown "TypeError" ∧
    outcomeStatus
      (handler { ACCESS_KEY := some "k", S3_BUCKET := some "bkt", IMAGE_ACCESS_BASE_URI := none }
        { sniff := pngJpegSniff, transform := Except.ok, uuidBytes := List.replicate 16 0,
          putObject := fun _ => none }
        { Authorization := none, body := .malformed }) ≠ some 401 ∧
    prefixTest "Bearer ".data "xyzBearer k".data = false ∧
    "xyzBearer k" ≠ "xyzk" ∧
    handler { ACCESS_KEY := some "xyzk", S3_BUCKET := some "bkt", IMAGE_ACCESS_BASE_URI := none }
      { sniff := pngJpegSniff, transform := Except.ok, uuidBytes := List.replicate 16 0,
        putObject := fun _ => none }
      { Authorization := some "xyzBearer k", body := .json { body := some "x" } } =
      .response (fail "Missing required metadata" 400) none := by
  refine ⟨by decide, by decide, by decide, by decide, by decide⟩

/-- Claim C7: the claim is right and the code is wrong (code bug). The
spec requires every invocation to end in a structured response, with a
malformed JSON body producing a structured 400; but `JSON.parse` throws a
`SyntaxError` inside the async promise executor, the exception escapes
unconverted, and the handler promise never resolves. This theorem
evaluates the handler at the failing input: a fully configured
environment, a correctly authorized request, and a body that is not valid
JSON. -/
theorem C7_malformed_json_throws :
    handler { ACCESS_KEY := some "k", S3_BUCKET := some "bkt", IMAGE_ACCESS_BASE_URI := none }
      { sniff := pngJpegSniff, transform := Except.ok, uuidBytes := List.replicate 16 0,
        putObject := fun _ => none }
      { Authorization := some "Bearer k", body := .malformed } = .thrown "SyntaxError" ∧
    outcomeStatus
      (handler { ACCESS_KEY := some "k", S3_BUCKET := some "bkt", IMAGE_ACCESS_BASE_URI := none }
        { sniff := pngJpegSniff, transform := Except.ok, uuidBytes := List.replicate 16 0,
          putObject := fun _ => none }
        { Authorization := some "Bearer k", body := .malformed }) ≠ some 400 := by
  refine ⟨by decide, by decide⟩

/-- Claim C1: the claim is right on missing identities and missing `type`,
but the code is wrong on the empty-body clause (code bug): a `body` field
that decodes from base64 to zero bytes is supposed to yield
MissingMetadata/400, and the source even tests `!decodedImage` for it, but
a Node.js `Buffer` is an object and objects are always truthy, so the
guard is dead code; the empty buffer flows on to the sniffer, which
rejects it as "Unrecognised file type" instead. This theorem evaluates
the handler at the failing input (authorized request, `accountId` and
`type` present, `body` the empty string) and also proves the two valid
clauses: with the `body` field present, a request missing both identities,
or missing `type`, gets MissingMetadata/400 with no storage call. -/
theorem C1_missing_metadata :
    (handler { ACCESS_KEY := some "k", S3_BUCKET := some "bkt", IMAGE_ACCESS_BASE_URI := none }
      { sniff := pngJpegSniff, transform := Except.ok, uuidBytes := List.replicate 16 0,
        putObject := fun _ => none }
      { Authorization := some "Bearer k",
        body := .json { body := some "", accountId := some "001xx", type := some "photo" } } =
      .response (fail "Unrecognised file type" 400) none ∧
    nodeBase64Decode "" = [] ∧
    fail "Unrecognised file type" 400 ≠ fail "Missing required metadata" 400) ∧
    ∀ (env : Env) (deps : Deps) (k a b64 : String) (d : Data),
      env.ACCESS_KEY = some k → k ≠ "" → truthy env.S3_BUCKET = true →
      replaceFirst "Bearer " a = k → d.body = some b64 →
      ((truthy d.accountId = false ∧ truthy d.championFundId = false) ∨
        truthy d.type = false) →
      handler env deps { Authorization := some a, body := .json d } =
        .response (fail "Missing required metadata" 400) none := by
  refine ⟨⟨by decide, by decide, by decide⟩,
    fun env deps k a b64 d hk hk0 hB hauth hbody hmiss => ?_⟩
  have hA : truthy (some k) = true := truthy_of_ne hk0
  rcases hmiss with ⟨h1, h2⟩ | h
  · simp [handler, hA, hB, hk, strOf, hauth, hbody, bufferTruthy, h1, h2]
  · simp [handler, hA, hB, hk, strOf, hauth, hbody, bufferTruthy, h]

/-- Claim C5: for every request that reaches the transform and fails, a
failure message containing one of the three recognized corrupt-input
signatures (invalid SOS parameters for sequential JPEG, premature end of
input file, unsupported image format despite passing sniffing) produces
status 400, and every other transform failure produces the generic
`Processing error: ...` response with status 500; no storage call is made
either way. -/
theorem C5_transform_errors (env : Env) (deps : Deps) (k a b64 msg : String) (d : Data)
    (fmt : SniffedFormat)
    (hk : env.ACCESS_KEY = some k) (hk0 : k ≠ "") (hB : truthy env.S3_BUCKET = true)
    (hauth : replaceFirst "Bearer " a = k) (hbody : d.body = some b64)
    (hty : truthy d.type = true) (hid : validIds d)
    (hsniff : deps.sniff (nodeBase64Decode b64) = some fmt)
    (htrans : deps.transform (nodeBase64Decode b64) = .error msg) :
    ((containsSubstr "VipsJpeg: Invalid SOS parameters for sequential JPEG" msg = true ∨
      containsSubstr "VipsJpeg: Premature end of input file" msg = true ∨
      containsSubstr "Input buffer contains unsupported image format" msg = true) →
      ∃ m, handler env deps { Authorization := some a, body := .json d } =
        .response (fail m 400) none) ∧
    (containsSubstr "VipsJpeg: Invalid SOS parameters for sequential JPEG" msg = false →
      containsSubstr "VipsJpeg: Premature end of input file" msg = false →
      containsSubstr "Input buffer contains unsupported image format" msg = false →
      handler env deps { Authorization := some a, body := .json d } =
        .response (fail ("Processing error: " ++ msg) 500) none) := by
  have hA : truthy (some k) = true := truthy_of_ne hk0
  constructor
  · intro hOr
    rcases hid with ⟨h1, h2⟩ | ⟨h1, h2, h3⟩ <;>
    · by_cases c1 :
        containsSubstr "VipsJpeg: Invalid SOS parameters for sequential JPEG" msg = true
      · exact ⟨"Processing error: corrupt JPEG, invalid SOS parameters",
          by simp [handler, hA, hB, hk, strOf, hauth, hbody, bufferTruthy,
            hty, h1, h2, hsniff, htrans, c1, *]⟩
      · by_cases c2 : containsSubstr "VipsJpeg: Premature end of input file" msg = true
        · exact ⟨"Processing error: corrupt, premature end of input file",
            by simp [handler, hA, hB, hk, strOf, hauth, hbody, bufferTruthy,
              hty, h1, h2, hsniff, htrans, c1, c2, *]⟩
        · have c3 : containsSubstr "Input buffer contains unsupported image format" msg =
              true := by
            rcases hOr with h | h | h
            · exact absurd h c1
            · exact absurd h c2
            · exact h
          exact ⟨"Processing error: unsupported image format",
            by simp [handler, hA, hB, hk, strOf, hauth, hbody, bufferTruthy,
              hty, h1, h2, hsniff, htrans, c1, c2, c3, *]⟩
  · intro c1 c2 c3
    rcases hid with ⟨h1, h2⟩ | ⟨h1, h2, h3⟩ <;>
      simp [handler, hA, hB, hk, strOf, hauth, hbody, bufferTruthy,
        hty, h1, h2, hsniff, htrans, c1, c2, c3, *]

theorem C5_witness :
    ((containsSubstr "VipsJpeg: Invalid SOS parameters for sequential JPEG"
        "VipsJpeg: Premature end of input file" = true ∨
      containsSubstr "VipsJpeg: Premature end of input file"
        "VipsJpeg: Premature end of input file" = true ∨
      containsSubstr "Input buffer contains unsupported image format"
        "VipsJpeg: Premature end of input file" = true) →
      ∃ m, handler
        { ACCESS_KEY := some "k", S3_BUCKET := some "bkt", IMAGE_ACCESS_BASE_URI := none }
        { sniff := pngJpegSniff,
          transform := fun _ => .error "VipsJpeg: Premature end of input file",
          uuidBytes := List.replicate 16 0, putObject := fun _ => none }
        { Authorization := some "Bearer k",
          body := .json { body := some "iVBORw0KGgo=", accountId := some "001xx", type := some "photo" } } = .response (fail m 400) none) ∧
    (containsSubstr "VipsJpeg: Invalid SOS parameters for sequential JPEG"
        "VipsJpeg: Premature end of input file" = false →
      containsSubstr "VipsJpeg: Premature end of input file"
        "VipsJpeg: Premature end of input file" = false →
      containsSubstr "Input buffer contains unsupported image format"
        "VipsJpeg: Premature end of input file" = false →
      handler
        { ACCESS_KEY := some "k", S3_BUCKET := some "bkt", IMAGE_ACCESS_BASE_URI := none }
        { sniff := pngJpegSniff,
          transform := fun _ => .error "VipsJpeg: Premature end of input file",
          uuidBytes := List.replicate 16 0, putObject := fun _ => none }
        { Authorization := some "Bearer k",
          body := .json { body := some "iVBORw0KGgo=", accountId := some "001xx", type := some "photo" } } =
        .response (fail ("Processing error: " ++ "VipsJpeg: Premature end of input file") 500)
          none) :=
  C5_transform_errors
    { ACCESS_KEY := some "k", S3_BUCKET := some "bkt", IMAGE_ACCESS_BASE_URI := none }
    { sniff := pngJpegSniff,
      transform := fun _ => .error "VipsJpeg: Premature end of input file",
      uuidBytes := List.replicate 16 0, putObject := fun _ => none }
    "k" "Bearer k" "iVBORw0KGgo=" "VipsJpeg: Premature end of input file"
    { body := some "iVBORw0KGgo=", accountId := some "001xx", type := some "photo" }
    ⟨"png", "image/png"⟩ rfl (by decide) (by decide) (by decide) rfl
    (by decide) (Or.inl (by decide)) (by decide) rfl

/-- Claim C3 (amended): for every request that reaches the storage step
and succeeds, the success body contains a uri equal to a base prefix
followed by `/` and the storage key `identity/type/identifier.extension`,
where identity is `accountId` when truthy, else `championFundId`, the
extension comes from byte sniffing, and the identifier is the uuid-v4
formatting of the 16 random bytes consumed in this invocation (a 36
character 128-bit UUID). The base prefix is always the JavaScript
stringification of `IMAGE_ACCESS_BASE_URI`: the configured value when set,
and the literal string `undefined` when unset — the canonical handler has
no bucket/region fallback (that pattern exists only in the superseded
`src/index.js` variant). -/
theorem C3_success_uri (env : Env) (deps : Deps) (k a b64 : String) (d : Data)
    (fmt : SniffedFormat) (img : List Nat)
    (hk : env.ACCESS_KEY = some k) (hk0 : k ≠ "") (hB : truthy env.S3_BUCKET = true)
    (hauth : replaceFirst "Bearer " a = k) (hbody : d.body = some b64)
    (hty : truthy d.type = true) (hid : validIds d)
    (hsniff : deps.sniff (nodeBase64Decode b64) = some fmt)
    (htrans : deps.transform (nodeBase64Decode b64) = .ok img)
    (hput : ∀ p, deps.putObject p = none) :
    handler env deps { Authorization := some a, body := .json d } =
      .response
        ⟨200,
          "\x7b\"uri\":" ++
            jsonStringifyString
              (strOf env.IMAGE_ACCESS_BASE_URI ++ "/" ++
                ((if truthy d.accountId = true then strOf d.accountId
                  else strOf d.championFundId) ++ "/" ++ strOf d.type ++ "/" ++
                  (uuidv4 deps.uuidBytes ++ "." ++ fmt.ext))) ++ "\x7d",
          false, "application/json"⟩
        (some
          ⟨"public-read", img, strOf env.S3_BUCKET, fmt.mime,
            (if truthy d.accountId = true then strOf d.accountId
              else strOf d.championFundId) ++ "/" ++ strOf d.type ++ "/" ++
              (uuidv4 deps.uuidBytes ++ "." ++ fmt.ext),
            buildMetadata d⟩) ∧
    (uuidv4 deps.uuidBytes).length = 36 := by
  have hA : truthy (some k) = true := truthy_of_ne hk0
  refine ⟨?_, uuidv4_length deps.uuidBytes⟩
  rcases hid with ⟨h1, h2⟩ | ⟨h1, h2, h3⟩ <;>
    simp [handler, hA, hB, hk, strOf, hauth, hbody, bufferTruthy, hty, h1, h2, hsniff,
      htrans, hput, *]

theorem C3_witness :
    handler
      { ACCESS_KEY := some "k", S3_BUCKET := some "bkt",
        IMAGE_ACCESS_BASE_URI := some "https://img.example.org" }
      { sniff := pngJpegSniff, transform := Except.ok, uuidBytes := List.replicate 16 0,
        putObject := fun _ => none }
      { Authorization := some "Bearer k", body := .json { body := some "iVBORw0KGgo=", accountId := some "001xx", type := some "photo" } } =
      .response
        ⟨200,
          "\x7b\"uri\":\"https://img.example.org/001xx/photo/00000000-0000-4000-8000-000000000000.png\"\x7d",
          false, "application/json"⟩
        (some
          ⟨"public-read", [137, 80, 78, 71, 13, 10, 26, 10], "bkt", "image/png",
            "001xx/photo/00000000-0000-4000-8000-000000000000.png",
            ⟨some "001xx", none, none, none, none, none, none, none⟩⟩) ∧
    (uuidv4 (List.replicate 16 0)).length = 36 :=
  C3_success_uri
    { ACCESS_KEY := some "k", S3_BUCKET := some "bkt",
      IMAGE_ACCESS_BASE_URI := some "https://img.example.org" }
    { sniff := pngJpegSniff, transform := Except.ok, uuidBytes := List.replicate 16 0,
      putObject := fun _ => none }
    "k" "Bearer k" "iVBORw0KGgo="
    { body := some "iVBORw0KGgo=", accountId := some "001xx", type := some "photo" }
    ⟨"png", "image/png"⟩ [137, 80, 78, 71, 13, 10, 26, 10]
    rfl (by decide) (by decide) (by decide) rfl (by decide) (Or.inl (by decide))
    (by decide) rfl (fun _ => rfl)

/-- Claim C3 counterexample: the claim as stated is false. With
`IMAGE_ACCESS_BASE_URI` unset, the returned uri is
`undefined/001xx/photo/....png` — the prefix is the literal JavaScript
stringification `undefined`, not a deterministic bucket/region URL
pattern such as `https://bkt.s3.eu-west-2.amazonaws.com`. -/
theorem C3_counterexample :
    outcomeBody
      (handler
        { ACCESS_KEY := some "k", S3_BUCKET := some "bkt", IMAGE_ACCESS_BASE_URI := none }
        { sniff := pngJpegSniff, transform := Except.ok, uuidBytes := List.replicate 16 0,
          putObject := fun _ => none }
        { Authorization := some "Bearer k", body := .json { body := some "iVBORw0KGgo=", accountId := some "001xx", type := some "photo" } }) =
      some
        "\x7b\"uri\":\"undefined/001xx/photo/00000000-0000-4000-8000-000000000000.png\"\x7d" ∧
    "undefined/001xx/photo/00000000-0000-4000-8000-000000000000.png" ≠
      "https://bkt.s3.eu-west-2.amazonaws.com/001xx/photo/00000000-0000-4000-8000-000000000000.png" := by
  refine ⟨by decide, by decide⟩

/-- Claim C4: for every validated request (at least one truthy identity),
the metadata mapping handed to the store contains the identity key for
whichever of `accountId`/`championFundId` was supplied; each optional key
(campaign id, content-document id, declared content type, content-version
id, display name, user id) is present exactly when the corresponding
request field is present and non-empty, never as a null or empty
placeholder; the declared content type and display name values are
percent-encoded through `metadataEscape`, the other values stored
verbatim; and no stored value is the empty string. -/
theorem C4_metadata (d : Data)
    (hid : truthy d.accountId = true ∨ truthy d.championFundId = true) :
    (truthy d.accountId = true → (buildMetadata d).SalesforceAccountId = d.accountId) ∧
    (truthy d.championFundId = true →
      (buildMetadata d).SalesforceChampionFundId = d.championFundId) ∧
    ((buildMetadata d).SalesforceAccountId ≠ none ∨
      (buildMetadata d).SalesforceChampionFundId ≠ none) ∧
    ((buildMetadata d).SalesforceAccountId ≠ none ↔ truthy d.accountId = true) ∧
    ((buildMetadata d).SalesforceChampionFundId ≠ none ↔ truthy d.championFundId = true) ∧
    ((buildMetadata d).SalesforceCCampaignId ≠ none ↔ truthy d.ccampaignId = true) ∧
    (truthy d.ccampaignId = true → (buildMetadata d).SalesforceCCampaignId = d.ccampaignId) ∧
    ((buildMetadata d).SalesforceContentDocumentId ≠ none ↔
      truthy d.contentDocumentId = true) ∧
    (truthy d.contentDocumentId = true →
      (buildMetadata d).SalesforceContentDocumentId = d.contentDocumentId) ∧
    ((buildMetadata d).SalesforceContentType ≠ none ↔ truthy d.contentType = true) ∧
    (∀ v, d.contentType = some v → v ≠ "" →
      (buildMetadata d).SalesforceContentType = some (metadataEscape v)) ∧
    ((buildMetadata d).SalesforceContentVersionId ≠ none ↔
      truthy d.contentVersionId = true) ∧
    (truthy d.contentVersionId = true →
      (buildMetadata d).SalesforceContentVersionId = d.contentVersionId) ∧
    ((buildMetadata d).SalesforceFilename ≠ none ↔ truthy d.name = true) ∧
    (∀ v, d.name = some v → v ≠ "" →
      (buildMetadata d).SalesforceFilename = some (metadataEscape v)) ∧
    ((buildMetadata d).SalesforceUserId ≠ none ↔ truthy d.userId = true) ∧
    (truthy d.userId = true → (buildMetadata d).SalesforceUserId = d.userId) ∧
    (∀ v, (buildMetadata d).SalesforceAccountId = some v → v ≠ "") ∧
    (∀ v, (buildMetadata d).SalesforceChampionFundId = some v → v ≠ "") ∧
    (∀ v, (buildMetadata d).SalesforceCCampaignId = some v → v ≠ "") ∧
    (∀ v, (buildMetadata d).SalesforceContentDocumentId = some v → v ≠ "") ∧
    (∀ v, (buildMetadata d).SalesforceContentType = some v → v ≠ "") ∧
    (∀ v, (buildMetadata d).SalesforceContentVersionId = some v → v ≠ "") ∧
    (∀ v, (buildMetadata d).SalesforceFilename = some v → v ≠ "") ∧
    (∀ v, (buildMetadata d).SalesforceUserId = some v → v ≠ "") := by
  simp only [buildMetadata]
  refine ⟨optField_of_truthy, optField_of_truthy,
    hid.imp (fun h => optField_ne_none.mpr h) (fun h => optField_ne_none.mpr h),
    optField_ne_none, optField_ne_none, optField_ne_none, optField_of_truthy,
    optField_ne_none, optField_of_truthy, mapEscape_ne_none, ?_,
    optField_ne_none, optField_of_truthy, mapEscape_ne_none, ?_,
    optField_ne_none, optField_of_truthy,
    fun v h => optField_some_ne h, fun v h => optField_some_ne h,
    fun v h => optField_some_ne h, fun v h => optField_some_ne h,
    fun v h => mapEscape_some_ne h, fun v h => optField_some_ne h,
    fun v h => mapEscape_some_ne h, fun v h => optField_some_ne h⟩
  · intro v hv hne
    rw [optField_of_truthy (by rw [hv]; exact truthy_of_ne hne), hv]
    rfl
  · intro v hv hne
    rw [optField_of_truthy (by rw [hv]; exact truthy_of_ne hne), hv]
    rfl

theorem C4_witness :
    (buildMetadata
      { body := some "iVBORw0KGgo=", accountId := some "001xx",
        name := some "my pic.png" }).SalesforceAccountId = some "001xx" ∧
    (buildMetadata
      { body := some "iVBORw0KGgo=", accountId := some "001xx",
        name := some "my pic.png" }).SalesforceFilename =
      some (metadataEscape "my pic.png") :=
  ⟨(C4_metadata
      { body := some "iVBORw0KGgo=", accountId := some "001xx", name := some "my pic.png" }
      (Or.inl (by decide))).1 (by decide),
    (C4_metadata
      { body := some "iVBORw0KGgo=", accountId := some "001xx", name := some "my pic.png" }
      (Or.inl (by decide))).2.2.2.2.2.2.2.2.2.2.2.2.2.2.1 "my pic.png" rfl (by decide)⟩

theorem truthy_normO (x : Option String) : truthy (normO x) = truthy x := by
  cases x with
  | none => rfl
  | some s => by_cases h : s = "" <;> simp [normO, truthy, h]

theorem normO_of_truthy {x : Option String} (h : truthy x = true) : normO x = x := by
  cases x with
  | none => rfl
  | some s =>
    have hs : s ≠ "" := by simpa [truthy] using h
    simp [normO, hs]

theorem optField_normO (x : Option String) : optField (normO x) = optField x := by
  cases x with
  | none => rfl
  | some s => by_cases h : s = "" <;> simp [normO, optField, truthy, h]

/-- Claim C10: the pipeline treats a present-but-empty identity or
optional field exactly as if it were absent. First conjunct: on every
environment, dependency record and parsed body, the handler result is
unchanged when every empty-string identity/optional field is erased.
Then: the empty string is falsy, so an empty `accountId` does not satisfy
the identity requirement and cannot trigger the mismatch check; the
metadata of a request with empty `accountId` equals the metadata with
`accountId` absent; the storage-key identity selection falls to
`championFundId` when `accountId` is empty; and an empty optional field is
omitted from the metadata, escaped or not. -/
theorem C10_empty_is_absent :
    (∀ (env : Env) (deps : Deps) (a : Option String) (d : Data),
      handler env deps { Authorization := a, body := .json d } =
        handler env deps { Authorization := a, body := .json (normalizeData d) }) ∧
    truthy (some "") = false ∧
    (∀ d : Data, d.accountId = some "" →
      buildMetadata d = buildMetadata { d with accountId := none }) ∧
    (∀ d : Data, d.accountId = some "" →
      (if truthy d.accountId = true then strOf d.accountId else strOf d.championFundId) =
        strOf d.championFundId) ∧
    (∀ x : Option String, x = some "" →
      optField x = none ∧ (optField x).map metadataEscape = none) := by
  refine ⟨fun env deps a d => ?_, by decide, fun d hd => ?_, fun d hd => ?_,
    fun x hx => ?_⟩
  · by_cases h1 : truthy d.accountId = true <;>
    by_cases h2 : truthy d.championFundId = true <;>
    by_cases h3 : truthy d.type = true <;>
      simp [handler, normalizeData, buildMetadata, truthy_normO, optField_normO,
        normO_of_truthy, h1, h2, h3]
  · simp [buildMetadata, hd, optField, truthy]
  · simp [hd, truthy]
  · subst hx
    simp [optField, truthy]

theorem C10_witness :
    handler { ACCESS_KEY := some "k", S3_BUCKET := some "bkt", IMAGE_ACCESS_BASE_URI := none }
      { sniff := pngJpegSniff, transform := Except.ok, uuidBytes := List.replicate 16 0,
        putObject := fun _ => none }
      { Authorization := some "Bearer k", body := .json { body := some "iVBORw0KGgo=", accountId := some "", championFundId := some "ch", type := some "photo", name := some "" } } =
      handler { ACCESS_KEY := some "k", S3_BUCKET := some "bkt", IMAGE_ACCESS_BASE_URI := none }
        { sniff := pngJpegSniff, transform := Except.ok, uuidBytes := List.replicate 16 0,
          putObject := fun _ => none }
        { Authorization := some "Bearer k", body := .json (normalizeData { body := some "iVBORw0KGgo=", accountId := some "", championFundId := some "ch", type := some "photo", name := some "" }) } ∧
    optField (some "") = none :=
  ⟨C10_empty_is_absent.1
      { ACCESS_KEY := some "k", S3_BUCKET := some "bkt", IMAGE_ACCESS_BASE_URI := none }
      { sniff := pngJpegSniff, transform := Except.ok, uuidBytes := List.replicate 16 0,
        putObject := fun _ => none }
      (some "Bearer k")
      { body := some "iVBORw0KGgo=", accountId := some "", championFundId := some "ch", type := some "photo", name := some "" },
    (C10_empty_is_absent.2.2.2.2 (some "") rfl).1⟩

theorem roundDiv_mono {a c : Nat} (b : Nat) (h : a ≤ c) : roundDiv a b ≤ roundDiv c b :=
  Nat.div_le_div_right (by omega)

theorem roundDiv_mul_self (k m : Nat) (hm : 0 < m) : roundDiv (m * k) m = k := by
  unfold roundDiv
  have h1 : 2 * (m * k) + m = m + 2 * m * k := by ring
  rw [h1, Nat.add_mul_div_left _ _ (by omega : 0 < 2 * m), Nat.div_eq_of_lt (by omega)]
  omega

theorem roundDiv_bounds (a b : Nat) (hb : 0 < b) :
    2 * b * roundDiv a b ≤ 2 * a + b ∧ 2 * a ≤ 2 * b * roundDiv a b + b := by
  unfold roundDiv
  have hdm := Nat.div_add_mod (2 * a + b) (2 * b)
  have hlt : (2 * a + b) % (2 * b) < 2 * b := Nat.mod_lt _ (by omega)
  generalize hq : (2 * a + b) / (2 * b) = q at hdm
  generalize hr : (2 * a + b) % (2 * b) = r at hdm hlt
  constructor
  · exact Nat.le.intro hdm
  · nlinarith [hdm, hlt]

theorem resize_aspect_key (m w h ow oh k : Nat) (hm : 0 < m)
    (hB1 : 2 * m * ow ≤ 2 * (w * k) + m) (hB4 : 2 * (h * k) ≤ 2 * m * oh + m) :
    2 * ow * h ≤ 2 * oh * w + (w + h) := by
  have hmul : 2 * m * (2 * ow * h) ≤ 2 * m * (2 * oh * w + (w + h)) := by
    calc 2 * m * (2 * ow * h) = 2 * h * (2 * m * ow) := by ring
      _ ≤ 2 * h * (2 * (w * k) + m) := Nat.mul_le_mul (Nat.le_refl _) hB1
      _ = 2 * w * (2 * (h * k)) + 2 * h * m := by ring
      _ ≤ 2 * w * (2 * m * oh + m) + 2 * h * m :=
          Nat.add_le_add_right (Nat.mul_le_mul (Nat.le_refl _) hB4) _
      _ = 2 * m * (2 * oh * w + (w + h)) := by ring
  exact Nat.le_of_mul_le_mul_left hmul (by omega)

/-- Claim C8: for every valid image (positive dimensions) processed by the
normalizer, the output dimensions satisfy `max(ow, oh) ≤ 2500`; an image
already within 2500 in both dimensions is returned unchanged (never
upscaled); and the aspect ratio is preserved within rounding, expressed as
the cross-product bound `|ow*h − oh*w| ≤ (w+h)/2` in its two one-sided
natural-number forms. -/
theorem C8_resize_invariants (w h ow oh : Nat) (hw : 0 < w) (_hh : 0 < h)
    (heq : resizeDims maxSizeConst w h = (ow, oh)) :
    max ow oh ≤ maxSizeConst ∧
    (w ≤ maxSizeConst → h ≤ maxSizeConst → ow = w ∧ oh = h) ∧
    2 * ow * h ≤ 2 * oh * w + (w + h) ∧
    2 * oh * w ≤ 2 * ow * h + (w + h) := by
  unfold resizeDims maxSizeConst at heq
  unfold maxSizeConst
  by_cases hc : w ≤ 2500 ∧ h ≤ 2500
  · rw [if_pos hc] at heq
    injection heq with e1 e2
    subst e1; subst e2
    have e : 2 * w * h = 2 * h * w := by ring
    refine ⟨by simp [hc.1, hc.2], fun _ _ => ⟨rfl, rfl⟩, ?_, ?_⟩
    · rw [e]; exact Nat.le_add_right _ _
    · rw [← e]; exact Nat.le_add_right _ _
  · rw [if_neg hc] at heq
    injection heq with e1 e2
    subst e1; subst e2
    have hm : 0 < max w h := Nat.lt_of_lt_of_le hw (Nat.le_max_left w h)
    have bw : roundDiv (w * 2500) (max w h) ≤ 2500 :=
      Nat.le_trans
        (roundDiv_mono (max w h) (Nat.mul_le_mul_right 2500 (Nat.le_max_left w h)))
        (Nat.le_of_eq (roundDiv_mul_self 2500 (max w h) hm))
    have bh : roundDiv (h * 2500) (max w h) ≤ 2500 :=
      Nat.le_trans
        (roundDiv_mono (max w h) (Nat.mul_le_mul_right 2500 (Nat.le_max_right w h)))
        (Nat.le_of_eq (roundDiv_mul_self 2500 (max w h) hm))
    refine ⟨Nat.max_le.mpr ⟨bw, bh⟩, fun h1 h2 => absurd ⟨h1, h2⟩ hc, ?_, ?_⟩
    · exact resize_aspect_key (max w h) w h _ _ 2500 hm
        (roundDiv_bounds (w * 2500) (max w h) hm).1
        (roundDiv_bounds (h * 2500) (max w h) hm).2
    · rw [Nat.add_comm w h]
      exact resize_aspect_key (max w h) h w _ _ 2500 hm
        (roundDiv_bounds (h * 2500) (max w h) hm).1
        (roundDiv_bounds (w * 2500) (max w h) hm).2

theorem C8_witness :
    max 2500 1667 ≤ maxSizeConst ∧
    (3000 ≤ maxSizeConst → 2000 ≤ maxSizeConst → 2500 = 3000 ∧ 1667 = 2000) ∧
    2 * 2500 * 2000 ≤ 2 * 1667 * 3000 + (3000 + 2000) ∧
    2 * 1667 * 3000 ≤ 2 * 2500 * 2000 + (3000 + 2000) :=
  C8_resize_invariants 3000 2000 2500 1667 (by decide) (by decide) (by decide)

theorem char_toNat_valid (c : Char) :
    c.toNat < 55296 ∨ (57343 < c.toNat ∧ c.toNat < 1114112) := by
  have h := c.valid
  simpa [UInt32.isValidChar, Nat.isValidChar, Char.toNat] using h

theorem hexVal_upper (m : Nat) (h : m < 16) : hexVal (hexDigitUpper m) = some m := by
  interval_cases m <;> rfl

theorem hexByte_round (b : Nat) (hb : b < 256) :
    hexByte (hexDigitUpper (b / 16)) (hexDigitUpper (b % 16)) = some b := by
  have e1 := hexVal_upper (b / 16) (by omega)
  have e2 := hexVal_upper (b % 16) (by omega)
  simp only [hexByte, e1, e2]
  congr 1
  omega

theorem unreserved_ne_pct {c : Char} (h : isUriUnreserved c = true) : ¬ c = pctChar := by
  intro he
  rw [he] at h
  exact absurd h (by decide)

theorem uriItems_plain (c : Char) (rest : List Char) (h : ¬ c = pctChar) :
    uriItems (c :: rest) = (uriItems rest).map (fun l => UriItem.ch c :: l) := by
  rw [uriItems.eq_def]
  simp only []
  rw [if_neg h]

theorem uriItems_pctByte (b : Nat) (rest : List Char) (hb : b < 256) :
    uriItems (pctByte b ++ rest) = (uriItems rest).map (fun l => UriItem.byte b :: l) := by
  have e1 := hexByte_round b hb
  simp only [pctByte, List.cons_append, List.nil_append]
  simp [uriItems, e1]

theorem decodeItems_ch (c : Char) (rest : List UriItem) :
    decodeItems (.ch c :: rest) = (decodeItems rest).map (fun l => c :: l) := by
  simp [decodeItems, decItemsGo]

theorem decodeItems_b1 (b : Nat) (rest : List UriItem) (hb : b < 128) :
    decodeItems (.byte b :: rest) = (decodeItems rest).map (fun l => Char.ofNat b :: l) := by
  simp [decodeItems, decItemsGo, hb]

theorem decodeItems_b2 (b b2 : Nat) (rest : List UriItem) (hb1 : 192 ≤ b) (hb2 : b < 224)
    (h2 : 128 ≤ b2 ∧ b2 < 192) (hcp : 128 ≤ (b - 192) * 64 + (b2 - 128)) :
    decodeItems (.byte b :: .byte b2 :: rest) =
      (decodeItems rest).map (fun l => Char.ofNat ((b - 192) * 64 + (b2 - 128)) :: l) := by
  have c1 : ¬ b < 128 := by omega
  have c2 : ¬ b < 192 := by omega
  have hok : 128 ≤ (b - 192) * 64 + (b2 - 128) ∧
      ((b - 192) * 64 + (b2 - 128) < 55296 ∨ 57344 ≤ (b - 192) * 64 + (b2 - 128)) ∧
      (b - 192) * 64 + (b2 - 128) < 1114112 :=
    ⟨hcp, Or.inl (by omega), by omega⟩
  simp [decodeItems, decItemsGo, c1, c2, hb2, h2, hok]

theorem decodeItems_b3 (b b2 b3 : Nat) (rest : List UriItem) (hb1 : 224 ≤ b) (hb2 : b < 240)
    (h2 : 128 ≤ b2 ∧ b2 < 192) (h3 : 128 ≤ b3 ∧ b3 < 192)
    (hcp : 2048 ≤ ((b - 224) * 64 + (b2 - 128)) * 64 + (b3 - 128) ∧
      (((b - 224) * 64 + (b2 - 128)) * 64 + (b3 - 128) < 55296 ∨
        57344 ≤ ((b - 224) * 64 + (b2 - 128)) * 64 + (b3 - 128))) :
    decodeItems (.byte b :: .byte b2 :: .byte b3 :: rest) =
      (decodeItems rest).map
        (fun l => Char.ofNat (((b - 224) * 64 + (b2 - 128)) * 64 + (b3 - 128)) :: l) := by
  have c1 : ¬ b < 128 := by omega
  have c2 : ¬ b < 192 := by omega
  have c3 : ¬ b < 224 := by omega
  have hok : 2048 ≤ ((b - 224) * 64 + (b2 - 128)) * 64 + (b3 - 128) ∧
      (((b - 224) * 64 + (b2 - 128)) * 64 + (b3 - 128) < 55296 ∨
        57344 ≤ ((b - 224) * 64 + (b2 - 128)) * 64 + (b3 - 128)) ∧
      ((b - 224) * 64 + (b2 - 128)) * 64 + (b3 - 128) < 1114112 :=
    ⟨hcp.1, hcp.2, by omega⟩
  simp [decodeItems, decItemsGo, c1, c2, c3, hb2, h2, h3, hok]

theorem decodeItems_b4 (b b2 b3 b4 : Nat) (rest : List UriItem) (hb1 : 240 ≤ b)
    (hb2 : b < 248) (h2 : 128 ≤ b2 ∧ b2 < 192) (h3 : 128 ≤ b3 ∧ b3 < 192)
    (h4 : 128 ≤ b4 ∧ b4 < 192)
    (hcp : 65536 ≤ (((b - 240) * 64 + (b2 - 128)) * 64 + (b3 - 128)) * 64 + (b4 - 128) ∧
      (((b - 240) * 64 + (b2 - 128)) * 64 + (b3 - 128)) * 64 + (b4 - 128) < 1114112) :
    decodeItems (.byte b :: .byte b2 :: .byte b3 :: .byte b4 :: rest) =
      (decodeItems rest).map
        (fun l =>
          Char.ofNat ((((b - 240) * 64 + (b2 - 128)) * 64 + (b3 - 128)) * 64 + (b4 - 128)) ::
            l) := by
  have c1 : ¬ b < 128 := by omega
  have c2 : ¬ b < 192 := by omega
  have c3 : ¬ b < 224 := by omega
  have c4 : ¬ b < 240 := by omega
  have hok : 65536 ≤ (((b - 240) * 64 + (b2 - 128)) * 64 + (b3 - 128)) * 64 + (b4 - 128) ∧
      ((((b - 240) * 64 + (b2 - 128)) * 64 + (b3 - 128)) * 64 + (b4 - 128) < 55296 ∨
        57344 ≤ (((b - 240) * 64 + (b2 - 128)) * 64 + (b3 - 128)) * 64 + (b4 - 128)) ∧
      (((b - 240) * 64 + (b2 - 128)) * 64 + (b3 - 128)) * 64 + (b4 - 128) < 1114112 :=
    ⟨hcp.1, Or.inr (by omega), hcp.2⟩
  simp [decodeItems, decItemsGo, c1, c2, c3, c4, hb2, h2, h3, h4, hok]

theorem uriItems_encChar (c : Char) (rest : List Char) :
    uriItems (encChar c ++ rest) = (uriItems rest).map (fun l => itemsOf c ++ l) := by
  have hv := char_toNat_valid c
  by_cases hu : isUriUnreserved c = true
  · simp only [encChar, if_pos hu, List.cons_append, List.nil_append]
    rw [uriItems_plain c rest (unreserved_ne_pct hu)]
    simp [itemsOf, hu]
  · by_cases h1 : c.toNat < 128
    · simp only [encChar, if_neg hu, if_pos h1]
      rw [uriItems_pctByte _ _ (by omega)]
      simp [itemsOf, hu, h1]
    · by_cases h2 : c.toNat < 2048
      · simp only [encChar, if_neg hu, if_neg h1, if_pos h2, List.append_assoc]
        rw [uriItems_pctByte _ _ (by omega), uriItems_pctByte _ _ (by omega),
          Option.map_map]
        simp [itemsOf, hu, h1, h2, Function.comp_def]
      · by_cases h3 : c.toNat < 65536
        · simp only [encChar, if_neg hu, if_neg h1, if_neg h2, if_pos h3,
            List.append_assoc]
          rw [uriItems_pctByte _ _ (by omega), uriItems_pctByte _ _ (by omega),
            uriItems_pctByte _ _ (by omega), Option.map_map, Option.map_map]
          simp [itemsOf, hu, h1, h2, h3, Function.comp_def]
        · simp only [encChar, if_neg hu, if_neg h1, if_neg h2, if_neg h3,
            List.append_assoc]
          rw [uriItems_pctByte _ _ (by omega), uriItems_pctByte _ _ (by omega),
            uriItems_pctByte _ _ (by omega),
            uriItems_pctByte _ _ (by rcases hv with h | h <;> omega),
            Option.map_map, Option.map_map, Option.map_map]
          simp [itemsOf, hu, h1, h2, h3, Function.comp_def]

theorem decodeItems_itemsOf (c : Char) (rest : List UriItem) :
    decodeItems (itemsOf c ++ rest) = (decodeItems rest).map (fun l => c :: l) := by
  have hv := char_toNat_valid c
  by_cases hu : isUriUnreserved c = true
  · simp only [itemsOf, if_pos hu, List.cons_append, List.nil_append]
    exact decodeItems_ch c rest
  · by_cases h1 : c.toNat < 128
    · simp only [itemsOf, if_neg hu, if_pos h1, List.cons_append, List.nil_append]
      rw [decodeItems_b1 _ _ h1, Char.ofNat_toNat]
    · by_cases h2 : c.toNat < 2048
      · simp only [itemsOf, if_neg hu, if_neg h1, if_pos h2, List.cons_append,
          List.nil_append]
        rw [decodeItems_b2 _ _ _ (by omega) (by omega) (by omega) (by omega)]
        have e : (192 + c.toNat / 64 - 192) * 64 + (128 + c.toNat % 64 - 128) =
            c.toNat := by omega
        rw [e, Char.ofNat_toNat]
      · by_cases h3 : c.toNat < 65536
        · simp only [itemsOf, if_neg hu, if_neg h1, if_neg h2, if_pos h3,
            List.cons_append, List.nil_append]
          rw [decodeItems_b3 _ _ _ _ (by omega) (by omega) (by omega) (by omega)
            (⟨by omega, by rcases hv with h | h <;> omega⟩)]
          have e : ((224 + c.toNat / 4096 - 224) * 64 + (128 + c.toNat / 64 % 64 - 128)) *
              64 + (128 + c.toNat % 64 - 128) = c.toNat := by omega
          rw [e, Char.ofNat_toNat]
        · simp only [itemsOf, if_neg hu, if_neg h1, if_neg h2, if_neg h3,
            List.cons_append, List.nil_append]
          rw [decodeItems_b4 _ _ _ _ _ (by omega)
            (by rcases hv with h | h <;> omega) (by omega) (by omega) (by omega)
            (⟨by omega, by rcases hv with h | h <;> omega⟩)]
          have e : (((240 + c.toNat / 262144 - 240) * 64 +
              (128 + c.toNat / 4096 % 64 - 128)) * 64 +
              (128 + c.toNat / 64 % 64 - 128)) * 64 + (128 + c.toNat % 64 - 128) =
              c.toNat := by omega
          rw [e, Char.ofNat_toNat]

theorem uriItems_encList (l : List Char) : uriItems (encList l) = some (itemsList l) := by
  induction l with
  | nil => rfl
  | cons c t ih =>
    simp only [encList, itemsList]
    rw [uriItems_encChar, ih]
    rfl

theorem decodeItems_itemsList (l : List Char) : decodeItems (itemsList l) = some l := by
  induction l with
  | nil => rfl
  | cons c t ih =>
    simp only [itemsList]
    rw [decodeItems_itemsOf, ih]
    rfl

theorem encChar_of_unreserved {c : Char} (h : isUriUnreserved c = true) :
    encChar c = [c] := by
  simp [encChar, h]

theorem encList_id {l : List Char} (h : ∀ c ∈ l, isUriUnreserved c = true) :
    encList l = l := by
  induction l with
  | nil => rfl
  | cons c t ih =>
    simp only [encList]
    rw [encChar_of_unreserved (h c (List.mem_cons_self c t)),
      ih (fun x hx => h x (List.mem_cons_of_mem c hx))]
    rfl

/-- Claim C9 (amended): the metadata escaping function is a no-op — and
hence idempotent — on every string of safe (unreserved) ASCII characters,
which contain no percent sign; and decoding the escaped value returns the
original for every string (`decode(encode(x)) = x`). The claim as stated
is false for already-escaped strings that contain a percent escape:
escaping re-encodes the percent sign itself (see the counterexample). -/
theorem C9_escape_roundtrip :
    (∀ s : String, (∀ c ∈ s.data, isUriUnreserved c = true) → metadataEscape s = s) ∧
    (∀ s : String, (∀ c ∈ s.data, isUriUnreserved c = true) →
      metadataEscape (metadataEscape s) = metadataEscape s) ∧
    (∀ x : String, decodeURIComponent (metadataEscape x) = some x) := by
  have noop : ∀ s : String, (∀ c ∈ s.data, isUriUnreserved c = true) →
      metadataEscape s = s := by
    intro s h
    show String.mk (encList s.data) = s
    rw [encList_id h]
  refine ⟨noop, fun s h => ?_, fun x => ?_⟩
  · rw [noop s h, noop s h]
  · show ((uriItems (String.mk (encList x.data)).data).bind decodeItems).map String.mk =
      some x
    rw [show (String.mk (encList x.data)).data = encList x.data from rfl,
      uriItems_encList]
    show (decodeItems (itemsList x.data)).map String.mk = some x
    rw [decodeItems_itemsList]
    rfl

theorem C9_witness :
    metadataEscape "abc.def" = "abc.def" ∧
    metadataEscape (metadataEscape "abc.def") = metadataEscape "abc.def" ∧
    decodeURIComponent (metadataEscape "my pic ≠ plain.png") =
      some "my pic ≠ plain.png" :=
  ⟨C9_escape_roundtrip.1 "abc.def" (by decide),
    C9_escape_roundtrip.2.1 "abc.def" (by decide),
    C9_escape_roundtrip.2.2 "my pic ≠ plain.png"⟩

/-- Claim C9 counterexample: the claim as stated is false. The string
`%20` is an already-escaped safe ASCII string (it is the escape of a
single space), yet escaping it again yields `%2520`, not `%20`: the
escaping function is not a no-op on already-escaped strings containing a
percent escape. -/
theorem C9_counterexample :
    metadataEscape " " = "%20" ∧
    metadataEscape "%20" = "%2520" ∧
    metadataEscape "%20" ≠ "%20" := by
  refine ⟨by decide, by decide, by decide⟩

end ContentApi
